import Mathlib

/-!
Verification development for the notes-frontend single-page application.

The client-side state-synchronization core of the page is embedded shallowly:
the React component state of `Home` becomes an explicit state record, each
event handler (`handleAddNew`, `handleSelectNote`, `handleSave`,
`handleDelete`) and each `useEffect` body becomes a pure state-transition
function, and every network call's outcome is an explicit `Except` parameter
of the event that triggers it (the app is event-driven and single-threaded:
each user intent, together with the completion of the requests it issues, is
one atomic step).  Each transition also reports the list of HTTP requests it
issues, so that claims about which requests are sent can be stated directly.
-/

namespace NotesApp

/-- The `Note` resource as in the frontend's `type Note`. -/
structure Note where
  id : String
  title : String
  content : String
  created_at : String
  updated_at : String
deriving DecidableEq, Repr

/-- The HTTP requests the resource client can issue: `fetchNotes`,
`fetchNote`, `createNote`, `updateNote`, `deleteNote`.  The create request
body carries only a title and a content (no id field exists). -/
inductive Request where
  | listNotes : Request
  | getNote (id : String) : Request
  | create (title content : String) : Request
  | update (id title content : String) : Request
  | deleteNote (id : String) : Request
deriving DecidableEq, Repr

/-- The state of the `Home` component (its `useState` hooks) together with
the draft buffer of the mounted `NoteEditor` (`localTitle`/`localContent`). -/
structure HomeState where
  notes : List Note
  activeId : Option String
  activeNote : Option Note
  isNewNote : Bool
  loading : Bool
  error : Option String
  localTitle : String
  localContent : String
deriving DecidableEq, Repr

/-- The placeholder draft note installed by `handleAddNew` and by the
`isNewNote` branch of the fetch effect: `{id:"new", title:"", ...}`. -/
def placeholderNote : Note :=
  { id := "new", title := "", content := "", created_at := "", updated_at := "" }

/-- Initial hook values: empty list, nothing active, not a new note,
no error, empty draft buffer. -/
def initState : HomeState :=
  { notes := [], activeId := none, activeNote := none, isNewNote := false,
    loading := false, error := none, localTitle := "", localContent := "" }

/-- Apply the outcome of a `fetchNotes` refresh, as in `refresh`:
on success replace `notes`, on failure set the load-list error message. -/
def applyRefresh (s : HomeState) (rl : Except Unit (List Note)) : HomeState :=
  match rl with
  | .ok data => { s with notes := data }
  | .error _ => { s with error := some "Could not load notes" }

/-- The initial-mount effect: `fetchNotes()` with result `r0`, starting from
the initial hook values; it issues exactly one list request. -/
def mount (r0 : Except Unit (List Note)) : HomeState × List Request :=
  (applyRefresh initState r0, [Request.listNotes])

/-- The `useEffect` on `[activeId, isNewNote]`: if an id is active and the
new-note flag is off, `fetchNote(activeId)` runs with outcome `r` (success
installs the fetched note and, because a fresh object arrives, the editor's
`useEffect [note]` re-initializes the draft buffer from it; failure only sets
the fetch-note error, leaving `activeNote` — and hence the draft — alone).
If the new-note flag is on, the placeholder draft is installed; otherwise
`activeNote` is cleared. -/
def fetchEffect (s : HomeState) (r : Except Unit Note) : HomeState × List Request :=
  match s.activeId, s.isNewNote with
  | some id, false =>
    match r with
    | .ok data =>
        ({ s with activeNote := some data,
                  localTitle := data.title, localContent := data.content },
         [Request.getNote id])
    | .error _ =>
        ({ s with error := some "Could not fetch note" }, [Request.getNote id])
  | _, true =>
      ({ s with activeNote := some placeholderNote,
                localTitle := "", localContent := "" }, [])
  | none, false =>
      ({ s with activeNote := none, localTitle := "", localContent := "" }, [])

/-- `handleSelectNote(id)`: clears the new-note flag and sets `activeId`;
the `[activeId, isNewNote]` effect then re-runs exactly when its dependency
pair changed. -/
def selectNote (s : HomeState) (id : String) (r : Except Unit Note) :
    HomeState × List Request :=
  let s1 := { s with isNewNote := false, activeId := some id }
  if s.activeId = some id ∧ s.isNewNote = false then (s1, [])
  else fetchEffect s1 r

/-- `handleAddNew`: sets the new-note flag, the sentinel id `"new"` and the
placeholder draft note; the editor re-initializes its draft buffer from the
fresh placeholder object. -/
def handleAddNew (s : HomeState) : HomeState :=
  { s with isNewNote := true, activeId := some "new",
           activeNote := some placeholderNote,
           localTitle := "", localContent := "" }

/-- `handleSave(title, content)`: in new-note mode issues `createNote`,
otherwise with an active note issues `updateNote(activeNote.id, ...)`,
otherwise issues nothing; on success (or when nothing was issued) resets the
selection and refreshes the list with outcome `rl`; on request failure only
the save error message is set (the `catch` block). -/
def handleSave (s : HomeState) (title content : String)
    (rq : Except Unit Unit) (rl : Except Unit (List Note)) :
    HomeState × List Request :=
  if s.isNewNote then
    match rq with
    | .ok _ =>
        (applyRefresh
          { s with isNewNote := false, activeId := none, activeNote := none,
                   localTitle := "", localContent := "" } rl,
         [Request.create title content, Request.listNotes])
    | .error _ =>
        ({ s with error := some "Could not save note" },
         [Request.create title content])
  else
    match s.activeNote with
    | some n =>
      match rq with
      | .ok _ =>
          (applyRefresh
            { s with isNewNote := false, activeId := none, activeNote := none,
                     localTitle := "", localContent := "" } rl,
           [Request.update n.id title content, Request.listNotes])
      | .error _ =>
          ({ s with error := some "Could not save note" },
           [Request.update n.id title content])
    | none =>
        (applyRefresh
          { s with isNewNote := false, activeId := none, activeNote := none,
                   localTitle := "", localContent := "" } rl,
         [Request.listNotes])

/-- `handleDelete`: returns immediately unless an existing note is active
(`!activeNote || isNewNote` guard); on success resets the selection and
refreshes the list; on failure only the delete error message is set. -/
def handleDelete (s : HomeState) (rq : Except Unit Unit)
    (rl : Except Unit (List Note)) : HomeState × List Request :=
  match s.activeNote, s.isNewNote with
  | some n, false =>
    match rq with
    | .ok _ =>
        (applyRefresh
          { s with activeId := none, activeNote := none, isNewNote := false,
                   localTitle := "", localContent := "" } rl,
         [Request.deleteNote n.id, Request.listNotes])
    | .error _ =>
        ({ s with error := some "Could not delete note" },
         [Request.deleteNote n.id])
  | _, _ => (s, [])

/-- The editor pane is rendered exactly when `isNewNote || activeNote`. -/
def editorShown (s : HomeState) : Bool :=
  s.isNewNote || s.activeNote.isSome

/-- The save button is clickable exactly when not loading and not both draft
fields are empty (`disabled={loading || (!localTitle && !localContent)}`). -/
def saveEnabled (s : HomeState) : Bool :=
  !s.loading && !(s.localTitle == "" && s.localContent == "")

/-- The user events of the page, each carrying the network outcomes of the
requests it triggers. -/
inductive Ev where
  | select (id : String) (r : Except Unit Note) : Ev
  | addNew : Ev
  | editTitle (v : String) : Ev
  | editContent (v : String) : Ev
  | save (rq : Except Unit Unit) (rl : Except Unit (List Note)) : Ev
  | del (rq : Except Unit Unit) (rl : Except Unit (List Note)) : Ev

/-- One atomic user event.  Edits reach only the editor's local draft state
(the page's `onChange` is a no-op); clicking Save dispatches `handleSave`
with the draft buffer only when the editor is rendered and the button
enabled; clicking Delete dispatches `handleDelete` only when the button is
rendered and not loading. -/
def step (s : HomeState) (ev : Ev) : HomeState × List Request :=
  match ev with
  | .select id r => selectNote s id r
  | .addNew => (handleAddNew s, [])
  | .editTitle v =>
      if editorShown s && !s.loading then ({ s with localTitle := v }, [])
      else (s, [])
  | .editContent v =>
      if editorShown s && !s.loading then ({ s with localContent := v }, [])
      else (s, [])
  | .save rq rl =>
      if editorShown s && saveEnabled s then handleSave s s.localTitle s.localContent rq rl
      else (s, [])
  | .del rq rl =>
      if s.loading then (s, []) else handleDelete s rq rl

/-- The state reached from `s` after a sequence of events. -/
def runState (s : HomeState) (evs : List Ev) : HomeState :=
  evs.foldl (fun t ev => (step t ev).1) s

/-- All requests issued along a sequence of events from `s`. -/
def runRequests (s : HomeState) (evs : List Ev) : List Request :=
  match evs with
  | [] => []
  | ev :: rest => (step s ev).2 ++ runRequests (step s ev).1 rest

/-- The derived selection state of the spec's Selection state machine. -/
inductive SelSt where
  | Idle : SelSt
  | Drafting : SelSt
  | Viewing (id : String) : SelSt
deriving DecidableEq, Repr

/-- How the encoding `(activeId, activeNote, isNewNote)` is read back as a
selection state: the new-note flag means Drafting, otherwise an active note
means Viewing it, otherwise Idle. -/
def selState (s : HomeState) : SelSt :=
  if s.isNewNote then SelSt.Drafting
  else
    match s.activeNote with
    | some n => SelSt.Viewing n.id
    | none => SelSt.Idle

/-- The state is in the Drafting configuration: the new-note flag is on. -/
def IsDrafting (s : HomeState) : Prop := s.isNewNote = true

/-- The state is in a Viewing configuration: flag off and a note active. -/
def IsViewing (s : HomeState) : Prop := s.isNewNote = false ∧ s.activeNote.isSome = true

/-- The state is in the Idle configuration: flag off and no note active. -/
def IsIdle (s : HomeState) : Prop := s.isNewNote = false ∧ s.activeNote = none

/-- Invariant: whenever the new-note flag is on, the active note is the
placeholder draft and the active id is the sentinel `"new"`. -/
def DraftWF (s : HomeState) : Prop :=
  s.isNewNote = true → s.activeNote = some placeholderNote ∧ s.activeId = some "new"

theorem draftWF_step (s : HomeState) (ev : Ev) (h : DraftWF s) :
    DraftWF (step s ev).1 := by
  obtain ⟨notes, aid, an, inn, ld, er, lt, lc⟩ := s
  cases ev with
  | select id r =>
      simp only [step, selectNote]
      split
      · intro hn; exact absurd hn (by simp)
      · cases r <;> simp [fetchEffect, DraftWF]
  | addNew => simp [step, handleAddNew, DraftWF]
  | editTitle v =>
      simp only [step]
      split <;> simpa [DraftWF] using h
  | editContent v =>
      simp only [step]
      split <;> simpa [DraftWF] using h
  | save rq rl =>
      simp only [step]
      split
      · cases inn with
        | true =>
            cases rq with
            | ok u => cases rl <;> simp [handleSave, applyRefresh, DraftWF]
            | error e => simpa [handleSave, DraftWF] using h
        | false =>
            cases an with
            | none => cases rl <;> simp [handleSave, applyRefresh, DraftWF]
            | some n =>
                cases rq with
                | ok u => cases rl <;> simp [handleSave, applyRefresh, DraftWF]
                | error e => simp [handleSave, DraftWF]
      · exact h
  | del rq rl =>
      simp only [step]
      split
      · exact h
      · cases an with
        | none => simpa [handleDelete] using h
        | some n =>
            cases inn with
            | true => simpa [handleDelete] using h
            | false =>
                cases rq with
                | ok u => cases rl <;> simp [handleDelete, applyRefresh, DraftWF]
                | error e => simp [handleDelete, DraftWF]

theorem draftWF_runState (s : HomeState) (evs : List Ev) (h : DraftWF s) :
    DraftWF (runState s evs) := by
  induction evs generalizing s with
  | nil => exact h
  | cons ev rest ih =>
      have : runState s (ev :: rest) = runState (step s ev).1 rest := rfl
      rw [this]
      exact ih _ (draftWF_step s ev h)

theorem draftWF_mount (r0 : Except Unit (List Note)) : DraftWF (mount r0).1 := by
  cases r0 <;> simp [mount, applyRefresh, initState, DraftWF]

/-- C1: Along every sequence of Select/New/Edit/Save/Delete events from the
initial state, the encoding triple `(activeId, activeNote, isNewNote)` maps
to exactly one of the three selection states Idle, Drafting, Viewing — at
least one configuration holds, no two hold simultaneously — and moreover
when Drafting holds the active note is exactly the placeholder draft and the
active id is the sentinel `"new"`, so no existing note is simultaneously
selected. -/
theorem C1_selection_exactly_one (r0 : Except Unit (List Note)) (evs : List Ev) :
    (IsDrafting (runState (mount r0).1 evs) ∨ IsViewing (runState (mount r0).1 evs)
      ∨ IsIdle (runState (mount r0).1 evs))
    ∧ ¬(IsDrafting (runState (mount r0).1 evs) ∧ IsViewing (runState (mount r0).1 evs))
    ∧ ¬(IsDrafting (runState (mount r0).1 evs) ∧ IsIdle (runState (mount r0).1 evs))
    ∧ ¬(IsViewing (runState (mount r0).1 evs) ∧ IsIdle (runState (mount r0).1 evs))
    ∧ (IsDrafting (runState (mount r0).1 evs) →
        (runState (mount r0).1 evs).activeNote = some placeholderNote
          ∧ (runState (mount r0).1 evs).activeId = some "new") := by
  have hwf := draftWF_runState (mount r0).1 evs (draftWF_mount r0)
  set s := runState (mount r0).1 evs with hs
  refine ⟨?_, ?_, ?_, ?_, fun hd => hwf hd⟩
  · by_cases hb : s.isNewNote = true
    · exact Or.inl hb
    · rcases ha : s.activeNote with _ | n
      · exact Or.inr (Or.inr ⟨by simpa using hb, ha⟩)
      · exact Or.inr (Or.inl ⟨by simpa using hb, by simp [ha]⟩)
  · rintro ⟨hd, hv, -⟩; simp [IsDrafting] at hd; simp [hd] at hv
  · rintro ⟨hd, hi, -⟩; simp [IsDrafting] at hd; simp [hd] at hi
  · rintro ⟨⟨-, hv⟩, -, hi⟩; simp [hi] at hv

/-- C1 witness: at the concrete run consisting of a single New event the
Drafting configuration holds with the placeholder active. -/
theorem C1_selection_exactly_one_witness :
    IsDrafting (runState (mount (Except.ok [])).1 [Ev.addNew])
    ∧ (runState (mount (Except.ok [])).1 [Ev.addNew]).activeNote = some placeholderNote := by
  refine ⟨by unfold IsDrafting; decide, ?_⟩
  exact ((C1_selection_exactly_one (Except.ok []) [Ev.addNew]).2.2.2.2
    (by unfold IsDrafting; decide)).1

/-- C2 counterexample: starting from the initial state, New() puts the page
in Drafting; a Select("1") whose fetch fails then sets the fetch-note error
but does NOT leave the selection state as it was before the Select: the
new-note flag is cleared while the stale placeholder stays active, so the
derived selection state changes from Drafting to Viewing "new". -/
theorem C2_select_failure_counterexample :
    selState (runState (mount (Except.ok [])).1 [Ev.addNew]) = SelSt.Drafting
    ∧ selState (runState (mount (Except.ok [])).1
        [Ev.addNew, Ev.select "1" (Except.error ())]) = SelSt.Viewing "new"
    ∧ selState (runState (mount (Except.ok [])).1
        [Ev.addNew, Ev.select "1" (Except.error ())]) ≠ SelSt.Drafting
    ∧ (runState (mount (Except.ok [])).1
        [Ev.addNew, Ev.select "1" (Except.error ())]).error
        = some "Could not fetch note" := by
  refine ⟨by decide, by decide, by decide, by decide⟩

/-- C2 (amended): for every Select(id) that issues a note fetch which fails,
the error slot is set to the fetch-note message and the active note is left
untouched; provided the pre-state was not Drafting, the derived selection
state therefore remains exactly what it was before the Select.  If the
pre-state was Drafting, the active note (the stale placeholder) is still
untouched but the new-note flag is cleared, so the state is demoted to
Viewing the placeholder rather than remaining Drafting. -/
theorem C2_select_failure (s : HomeState) (id : String) :
    (s.isNewNote = false → s.activeId ≠ some id →
      ((selectNote s id (Except.error ())).1.error = some "Could not fetch note"
        ∧ selState (selectNote s id (Except.error ())).1 = selState s
        ∧ (selectNote s id (Except.error ())).1.activeNote = s.activeNote
        ∧ (selectNote s id (Except.error ())).1.notes = s.notes
        ∧ (selectNote s id (Except.error ())).1.localTitle = s.localTitle
        ∧ (selectNote s id (Except.error ())).1.localContent = s.localContent
        ∧ (selectNote s id (Except.error ())).2 = [Request.getNote id]))
    ∧ (s.isNewNote = true →
      ((selectNote s id (Except.error ())).1.error = some "Could not fetch note"
        ∧ (selectNote s id (Except.error ())).1.activeNote = s.activeNote
        ∧ (selectNote s id (Except.error ())).1.isNewNote = false
        ∧ (selectNote s id (Except.error ())).2 = [Request.getNote id])) := by
  obtain ⟨notes, aid, an, inn, ld, er, lt, lc⟩ := s
  constructor
  · rintro hinn hne
    subst hinn
    simp only [selectNote]
    split
    · rename_i hcond
      exact absurd hcond.1 hne
    · cases an <;> simp [fetchEffect, selState]
  · rintro hinn
    subst hinn
    simp only [selectNote]
    split
    · rename_i hcond
      exact absurd hcond.2 (by simp)
    · simp [fetchEffect]

/-- C2 witness: a failed Select("1") from the freshly mounted Idle state
sets the fetch-note error and leaves the selection Idle. -/
theorem C2_select_failure_witness :
    (mount (Except.ok [])).1.isNewNote = false
    ∧ (mount (Except.ok [])).1.activeId ≠ some "1"
    ∧ (selectNote (mount (Except.ok [])).1 "1" (Except.error ())).1.error
        = some "Could not fetch note"
    ∧ selState (selectNote (mount (Except.ok [])).1 "1" (Except.error ())).1
        = selState (mount (Except.ok [])).1 := by
  refine ⟨by decide, by decide, ?_, ?_⟩
  · exact ((C2_select_failure (mount (Except.ok [])).1 "1").1
      (by decide) (by decide)).1
  · exact ((C2_select_failure (mount (Except.ok [])).1 "1").1
      (by decide) (by decide)).2.1

/-- C3: clicking Save with both draft fields empty is a no-op — the save
button is disabled (`!localTitle && !localContent`), so no request is issued
and the entire state (selection, draft buffer, list cache, error slot) is
unchanged. -/
theorem C3_save_both_empty_noop (s : HomeState) (rq : Except Unit Unit)
    (rl : Except Unit (List Note))
    (h1 : s.localTitle = "") (h2 : s.localContent = "") :
    step s (Ev.save rq rl) = (s, []) := by
  simp [step, saveEnabled, h1, h2]

/-- C3 witness: Save clicked in a fresh Drafting state (both fields empty)
changes nothing and issues nothing. -/
theorem C3_save_both_empty_noop_witness :
    (handleAddNew initState).localTitle = ""
    ∧ (handleAddNew initState).localContent = ""
    ∧ step (handleAddNew initState) (Ev.save (Except.ok ()) (Except.ok []))
        = (handleAddNew initState, []) := by
  refine ⟨by decide, by decide, ?_⟩
  exact C3_save_both_empty_noop (handleAddNew initState) (Except.ok ())
    (Except.ok []) (by decide) (by decide)

/-- C4: for every Save() whose create or update request fails (the editor is
shown and the button enabled, so a request is actually issued), the
selection encoding is unchanged — Drafting stays Drafting, Viewing(id) stays
Viewing(id) — the draft buffer is preserved, the list cache is not
refreshed (no list request is issued and `notes` is untouched), and the
error slot is set to the save-failure message. -/
theorem C4_save_failure_preserves (s : HomeState) (rl : Except Unit (List Note))
    (hShown : editorShown s = true) (hEn : saveEnabled s = true) :
    (step s (Ev.save (Except.error ()) rl)).1.activeId = s.activeId
    ∧ (step s (Ev.save (Except.error ()) rl)).1.activeNote = s.activeNote
    ∧ (step s (Ev.save (Except.error ()) rl)).1.isNewNote = s.isNewNote
    ∧ (step s (Ev.save (Except.error ()) rl)).1.localTitle = s.localTitle
    ∧ (step s (Ev.save (Except.error ()) rl)).1.localContent = s.localContent
    ∧ (step s (Ev.save (Except.error ()) rl)).1.notes = s.notes
    ∧ (step s (Ev.save (Except.error ()) rl)).1.error = some "Could not save note"
    ∧ selState (step s (Ev.save (Except.error ()) rl)).1 = selState s
    ∧ Request.listNotes ∉ (step s (Ev.save (Except.error ()) rl)).2 := by
  obtain ⟨notes, aid, an, inn, ld, er, lt, lc⟩ := s
  simp only [step, hShown, hEn, Bool.and_self, if_true]
  cases inn with
  | true => simp [handleSave, selState]
  | false =>
      cases an with
      | none => exact absurd hShown (by simp [editorShown])
      | some n => simp [handleSave, selState]

/-- C4 witness: a failed update while viewing a note "1" preserves the whole
visible state and sets the save-failure error. -/
theorem C4_save_failure_preserves_witness :
    editorShown
        { notes := [], activeId := some "1",
          activeNote := some
            { id := "1", title := "a", content := "b",
              created_at := "t", updated_at := "t" },
          isNewNote := false, loading := false, error := none,
          localTitle := "a", localContent := "b" } = true
    ∧ saveEnabled
        { notes := [], activeId := some "1",
          activeNote := some
            { id := "1", title := "a", content := "b",
              created_at := "t", updated_at := "t" },
          isNewNote := false, loading := false, error := none,
          localTitle := "a", localContent := "b" } = true
    ∧ (step
        { notes := [], activeId := some "1",
          activeNote := some
            { id := "1", title := "a", content := "b",
              created_at := "t", updated_at := "t" },
          isNewNote := false, loading := false, error := none,
          localTitle := "a", localContent := "b" }
        (Ev.save (Except.error ()) (Except.ok []))).1.error
        = some "Could not save note" := by
  refine ⟨by decide, by decide, ?_⟩
  exact (C4_save_failure_preserves
    { notes := [], activeId := some "1",
      activeNote := some
        { id := "1", title := "a", content := "b",
          created_at := "t", updated_at := "t" },
      isNewNote := false, loading := false, error := none,
      localTitle := "a", localContent := "b" }
    (Except.ok []) (by decide) (by decide)).2.2.2.2.2.2.1

/-- C5: a Delete() issued while an existing note is active (Viewing(id))
whose request fails only sets the delete-failure error: the selection
remains Viewing(id), the draft buffer and the list cache are untouched and
no list refresh is issued; and a Delete() outside Viewing — no active note,
or new-note mode — is rejected by the guard and changes nothing. -/
theorem C5_delete_failure (s : HomeState) (n : Note) (rq : Except Unit Unit)
    (rl : Except Unit (List Note)) :
    (s.loading = false → s.activeNote = some n → s.isNewNote = false →
      ((step s (Ev.del (Except.error ()) rl)).1
          = { s with error := some "Could not delete note" }
        ∧ (step s (Ev.del (Except.error ()) rl)).2 = [Request.deleteNote n.id]
        ∧ selState (step s (Ev.del (Except.error ()) rl)).1 = SelSt.Viewing n.id
        ∧ selState s = SelSt.Viewing n.id))
    ∧ (s.activeNote = none ∨ s.isNewNote = true → step s (Ev.del rq rl) = (s, [])) := by
  constructor
  · rintro hld han hinn
    obtain ⟨notes, aid, an, inn, ld, er, lt, lc⟩ := s
    simp only at hld han hinn
    subst hld hinn han
    simp [step, handleDelete, selState]
  · rintro (han | hinn)
    · obtain ⟨notes, aid, an, inn, ld, er, lt, lc⟩ := s
      simp only at han
      subst han
      simp only [step]
      split
      · rfl
      · cases inn <;> simp [handleDelete]
    · obtain ⟨notes, aid, an, inn, ld, er, lt, lc⟩ := s
      simp only at hinn
      subst hinn
      simp only [step]
      split
      · rfl
      · cases an <;> simp [handleDelete]

/-- C5 witness: deleting note "1" while viewing it, with the request
failing, leaves the state Viewing "1" and sets the delete-failure error. -/
theorem C5_delete_failure_witness :
    (step
        { notes := [], activeId := some "1",
          activeNote := some
            { id := "1", title := "a", content := "b",
              created_at := "t", updated_at := "t" },
          isNewNote := false, loading := false, error := none,
          localTitle := "a", localContent := "b" }
        (Ev.del (Except.error ()) (Except.ok []))).2
      = [Request.deleteNote "1"]
    ∧ selState (step
        { notes := [], activeId := some "1",
          activeNote := some
            { id := "1", title := "a", content := "b",
              created_at := "t", updated_at := "t" },
          isNewNote := false, loading := false, error := none,
          localTitle := "a", localContent := "b" }
        (Ev.del (Except.error ()) (Except.ok []))).1 = SelSt.Viewing "1" := by
  have h := (C5_delete_failure
    { notes := [], activeId := some "1",
      activeNote := some
        { id := "1", title := "a", content := "b",
          created_at := "t", updated_at := "t" },
      isNewNote := false, loading := false, error := none,
      localTitle := "a", localContent := "b" }
    { id := "1", title := "a", content := "b",
      created_at := "t", updated_at := "t" }
    (Except.error ()) (Except.ok [])).1 rfl rfl rfl
  exact ⟨h.2.1, h.2.2.1⟩

/-- C6: every successful Save() dispatched from the editor issues
create(localTitle, localContent) in Drafting and
update(activeNote.id, localTitle, localContent) in Viewing, followed in
both cases by a list refresh; afterwards the selection state is Idle, and
when the refresh succeeds the list cache is exactly the refreshed server
list — in particular it contains every note of that response, so after a
successful create the list cache contains the new note. -/
theorem C6_save_success (s : HomeState) (rl : Except Unit (List Note))
    (hShown : editorShown s = true) (hEn : saveEnabled s = true) :
    (s.isNewNote = true →
      (step s (Ev.save (Except.ok ()) rl)).2
        = [Request.create s.localTitle s.localContent, Request.listNotes])
    ∧ (∀ n : Note, s.isNewNote = false → s.activeNote = some n →
      (step s (Ev.save (Except.ok ()) rl)).2
        = [Request.update n.id s.localTitle s.localContent, Request.listNotes])
    ∧ selState (step s (Ev.save (Except.ok ()) rl)).1 = SelSt.Idle
    ∧ (∀ d : List Note, rl = Except.ok d →
        (step s (Ev.save (Except.ok ()) rl)).1.notes = d
        ∧ ∀ m : Note, m ∈ d → m ∈ (step s (Ev.save (Except.ok ()) rl)).1.notes) := by
  obtain ⟨notes, aid, an, inn, ld, er, lt, lc⟩ := s
  simp only [step, hShown, hEn, Bool.and_self, if_true]
  cases inn with
  | true =>
      refine ⟨?_, ?_, ?_, ?_⟩
      · intro _; cases rl <;> simp [handleSave, applyRefresh]
      · rintro n hinn han; exact absurd hinn (by simp)
      · cases rl <;> simp [handleSave, applyRefresh, selState]
      · rintro d hd; subst hd; simp [handleSave, applyRefresh]
  | false =>
      cases an with
      | none => exact absurd hShown (by simp [editorShown])
      | some n0 =>
          refine ⟨?_, ?_, ?_, ?_⟩
          · intro hinn; exact absurd hinn (by simp)
          · rintro n hinn han
            have hn : n0 = n := by simpa using han
            subst hn
            cases rl <;> simp [handleSave, applyRefresh]
          · cases rl <;> simp [handleSave, applyRefresh, selState]
          · rintro d hd; subst hd; simp [handleSave, applyRefresh]

/-- C6 witness: a successful create from a Drafting state with draft title
"Hi" issues exactly the create and the list request, returns to Idle, and
the refreshed list becomes the cache. -/
theorem C6_save_success_witness :
    (step { handleAddNew initState with localTitle := "Hi" }
        (Ev.save (Except.ok ())
          (Except.ok [{ id := "1", title := "Hi", content := "",
                        created_at := "t1", updated_at := "t1" }]))).2
      = [Request.create "Hi" "", Request.listNotes]
    ∧ selState (step { handleAddNew initState with localTitle := "Hi" }
        (Ev.save (Except.ok ())
          (Except.ok [{ id := "1", title := "Hi", content := "",
                        created_at := "t1", updated_at := "t1" }]))).1 = SelSt.Idle
    ∧ (step { handleAddNew initState with localTitle := "Hi" }
        (Ev.save (Except.ok ())
          (Except.ok [{ id := "1", title := "Hi", content := "",
                        created_at := "t1", updated_at := "t1" }]))).1.notes
      = [{ id := "1", title := "Hi", content := "",
           created_at := "t1", updated_at := "t1" }] := by
  have h := C6_save_success { handleAddNew initState with localTitle := "Hi" }
    (Except.ok [{ id := "1", title := "Hi", content := "",
                  created_at := "t1", updated_at := "t1" }])
    (by decide) (by decide)
  exact ⟨h.1 (by decide), h.2.2.1,
    (h.2.2.2 [{ id := "1", title := "Hi", content := "",
                created_at := "t1", updated_at := "t1" }] rfl).1⟩

/-- C7: an Edit of either draft field mutates only the editor's draft
buffer: no request is issued, and the list cache, the selection encoding
(`activeId`, `activeNote`, `isNewNote`), the derived selection state and the
error slot are all unchanged; when the editor is not shown (nothing selected
or drafted) the Edit has no effect at all, and when it is shown and not
loading the edited field takes the new value while the other field keeps
its value. -/
theorem C7_edit_frame (s : HomeState) (v : String) :
    ((step s (Ev.editTitle v)).2 = [] ∧ (step s (Ev.editContent v)).2 = [])
    ∧ ((step s (Ev.editTitle v)).1.notes = s.notes
        ∧ (step s (Ev.editTitle v)).1.activeId = s.activeId
        ∧ (step s (Ev.editTitle v)).1.activeNote = s.activeNote
        ∧ (step s (Ev.editTitle v)).1.isNewNote = s.isNewNote
        ∧ (step s (Ev.editTitle v)).1.error = s.error
        ∧ selState (step s (Ev.editTitle v)).1 = selState s)
    ∧ ((step s (Ev.editContent v)).1.notes = s.notes
        ∧ (step s (Ev.editContent v)).1.activeId = s.activeId
        ∧ (step s (Ev.editContent v)).1.activeNote = s.activeNote
        ∧ (step s (Ev.editContent v)).1.isNewNote = s.isNewNote
        ∧ (step s (Ev.editContent v)).1.error = s.error
        ∧ selState (step s (Ev.editContent v)).1 = selState s)
    ∧ (editorShown s = false →
        step s (Ev.editTitle v) = (s, []) ∧ step s (Ev.editContent v) = (s, []))
    ∧ (editorShown s = true → s.loading = false →
        ((step s (Ev.editTitle v)).1.localTitle = v
          ∧ (step s (Ev.editTitle v)).1.localContent = s.localContent
          ∧ (step s (Ev.editContent v)).1.localContent = v
          ∧ (step s (Ev.editContent v)).1.localTitle = s.localTitle)) := by
  obtain ⟨notes, aid, an, inn, ld, er, lt, lc⟩ := s
  refine ⟨⟨?_, ?_⟩, ?_, ?_, ?_, ?_⟩
  · simp only [step]; split <;> rfl
  · simp only [step]; split <;> rfl
  · simp only [step]; split <;> simp [selState]
  · simp only [step]; split <;> simp [selState]
  · intro hns
    simp [step, hns]
  · intro hs hld
    simp only at hld
    subst hld
    simp [step, hs]

/-- C7 witness: editing the title to "Hi" in a fresh Drafting state changes
only the draft title, issues nothing, and keeps the selection Drafting. -/
theorem C7_edit_frame_witness :
    editorShown (handleAddNew initState) = true
    ∧ (handleAddNew initState).loading = false
    ∧ (step (handleAddNew initState) (Ev.editTitle "Hi")).2 = []
    ∧ (step (handleAddNew initState) (Ev.editTitle "Hi")).1.localTitle = "Hi"
    ∧ selState (step (handleAddNew initState) (Ev.editTitle "Hi")).1
        = selState (handleAddNew initState) := by
  have h := C7_edit_frame (handleAddNew initState) "Hi"
  exact ⟨by decide, by decide, h.1.1, (h.2.2.2.2 (by decide) (by decide)).1,
    h.2.1.2.2.2.2.2⟩

/-- C8: the full list request is issued exactly on initial mount and by
every successful create/update/delete — a Save click dispatched with the
editor shown and the button enabled whose request succeeds, or a Delete
click dispatched while not loading on an existing active note whose request
succeeds; no other event (select, new, draft edits, failed saves or
deletes) ever issues a list request. -/
theorem C8_refresh_exactly_on_mount_and_success :
    (∀ r0 : Except Unit (List Note), (mount r0).2 = [Request.listNotes])
    ∧ (∀ (s : HomeState) (ev : Ev),
        Request.listNotes ∈ (step s ev).2 ↔
          ((∃ rl, ev = Ev.save (Except.ok ()) rl
              ∧ editorShown s = true ∧ saveEnabled s = true)
            ∨ (∃ rl, ev = Ev.del (Except.ok ()) rl
              ∧ s.loading = false ∧ s.isNewNote = false
              ∧ s.activeNote.isSome = true))) := by
  constructor
  · intro r0; rfl
  · intro s ev
    obtain ⟨notes, aid, an, inn, ld, er, lt, lc⟩ := s
    cases ev with
    | select id r =>
        simp only [step, selectNote]
        constructor
        · intro hmem
          exfalso
          revert hmem
          split
          · simp
          · cases an <;> cases inn <;> cases r <;> simp [fetchEffect]
        · rintro (⟨rl, h, -⟩ | ⟨rl, h, -⟩) <;> exact absurd h (by simp)
    | addNew =>
        simp only [step]
        constructor
        · intro hmem; exact absurd hmem (by simp)
        · rintro (⟨rl, h, -⟩ | ⟨rl, h, -⟩) <;> exact absurd h (by simp)
    | editTitle v =>
        simp only [step]
        constructor
        · intro hmem
          exfalso
          revert hmem
          split <;> simp
        · rintro (⟨rl, h, -⟩ | ⟨rl, h, -⟩) <;> exact absurd h (by simp)
    | editContent v =>
        simp only [step]
        constructor
        · intro hmem
          exfalso
          revert hmem
          split <;> simp
        · rintro (⟨rl, h, -⟩ | ⟨rl, h, -⟩) <;> exact absurd h (by simp)
    | save rq rl =>
        simp only [step]
        constructor
        · intro hmem
          left
          refine ⟨rl, ?_⟩
          revert hmem
          split
          · rename_i hguard
            rw [Bool.and_eq_true] at hguard
            cases inn with
            | true =>
                cases rq with
                | ok u => intro _; simp [hguard.1, hguard.2]
                | error e => intro hmem; exact absurd hmem (by simp [handleSave])
            | false =>
                cases an with
                | none => intro _; exact absurd hguard.1 (by simp [editorShown])
                | some n =>
                    cases rq with
                    | ok u => intro _; simp [hguard.1, hguard.2]
                    | error e => intro hmem; exact absurd hmem (by simp [handleSave])
          · intro hmem; exact absurd hmem (by simp)
        · rintro (⟨rl2, hev, hsh, hen⟩ | ⟨rl2, hev, -⟩)
          · obtain ⟨hrq, hrl⟩ : rq = Except.ok () ∧ rl2 = rl := by
              cases hev; exact ⟨rfl, rfl⟩
            subst hrq
            simp only [hsh, hen, Bool.and_self, if_true]
            cases inn with
            | true => simp [handleSave]
            | false =>
                cases an with
                | none => simp [handleSave]
                | some n => simp [handleSave]
          · exact absurd hev (by simp)
    | del rq rl =>
        simp only [step]
        constructor
        · intro hmem
          right
          refine ⟨rl, ?_⟩
          revert hmem
          split
          · simp
          · rename_i hld
            cases an with
            | none => cases inn <;> simp [handleDelete]
            | some n =>
                cases inn with
                | true => simp [handleDelete]
                | false =>
                    cases rq with
                    | ok u =>
                        cases u
                        intro _
                        refine ⟨rfl, ?_, rfl, rfl⟩
                        simpa using hld
                    | error e => intro hmem; exact absurd hmem (by simp [handleDelete])
        · rintro (⟨rl2, hev, -⟩ | ⟨rl2, hev, hld, hinn, hsome⟩)
          · exact absurd hev (by simp)
          · obtain ⟨hrq, hrl⟩ : rq = Except.ok () ∧ rl2 = rl := by
              cases hev; exact ⟨rfl, rfl⟩
            subst hrq
            have hld2 : ld = false := hld
            have hinn2 : inn = false := hinn
            subst hld2 hinn2
            cases an with
            | none => exact absurd hsome (by simp)
            | some n => simp [handleDelete]

/-- C8 witness: on the mounted state, a successful delete of the active note
issues a list request. -/
theorem C8_refresh_witness :
    Request.listNotes ∈ (step
        { notes := [], activeId := some "1",
          activeNote := some
            { id := "1", title := "a", content := "b",
              created_at := "t", updated_at := "t" },
          isNewNote := false, loading := false, error := none,
          localTitle := "a", localContent := "b" }
        (Ev.del (Except.ok ()) (Except.ok []))).2 := by
  exact (C8_refresh_exactly_on_mount_and_success.2
    { notes := [], activeId := some "1",
      activeNote := some
        { id := "1", title := "a", content := "b",
          created_at := "t", updated_at := "t" },
      isNewNote := false, loading := false, error := none,
      localTitle := "a", localContent := "b" }
    (Ev.del (Except.ok ()) (Except.ok []))).mpr
    (Or.inr ⟨Except.ok [], rfl, rfl, rfl, rfl⟩)

/-- C9 counterexample: the placeholder id "new" CAN be sent to the server.
From the initial state: New() installs the placeholder; a Select("1") whose
fetch fails clears the new-note flag but leaves the stale placeholder as the
active note; a subsequent Delete() then issues the delete request with id
"new", and (after an edit making the save button enabled) a subsequent
Save() issues an update request with id "new". -/
theorem C9_placeholder_sent_counterexample :
    Request.deleteNote "new" ∈ runRequests (mount (Except.ok [])).1
      [Ev.addNew, Ev.select "1" (Except.error ()), Ev.del (Except.ok ()) (Except.ok [])]
    ∧ Request.update "new" "x" "" ∈ runRequests (mount (Except.ok [])).1
      [Ev.addNew, Ev.select "1" (Except.error ()), Ev.editTitle "x",
       Ev.save (Except.ok ()) (Except.ok [])] := by
  refine ⟨by decide, by decide⟩

/-- C9 (amended): while Drafting (the new-note flag on), the placeholder id
is never sent: Delete() is a guarded no-op issuing nothing, and the only
requests a Save() can issue are the create request — whose body carries
only the draft title and content, no id — and the list refresh.  (The
placeholder id can reach the server only after a failed Select demotes the
state out of Drafting while the stale placeholder stays active.) -/
theorem C9_drafting_never_sends_placeholder (s : HomeState)
    (rq : Except Unit Unit) (rl : Except Unit (List Note))
    (h : s.isNewNote = true) :
    step s (Ev.del rq rl) = (s, [])
    ∧ (∀ r : Request, r ∈ (step s (Ev.save rq rl)).2 →
        r = Request.create s.localTitle s.localContent ∨ r = Request.listNotes) := by
  obtain ⟨notes, aid, an, inn, ld, er, lt, lc⟩ := s
  have hinn : inn = true := h
  subst hinn
  constructor
  · simp only [step]
    split
    · rfl
    · cases an <;> simp [handleDelete]
  · intro r hr
    revert hr
    simp only [step]
    split
    · cases rq with
      | ok u => cases rl <;> simp [handleSave, applyRefresh]
      | error e =>
          simp [handleSave]
          exact fun hr => Or.inl hr
    · simp

/-- C9 witness: in a concrete Drafting state with draft title "x", Delete()
is a no-op issuing no request. -/
theorem C9_drafting_never_sends_placeholder_witness :
    { handleAddNew initState with localTitle := "x" }.isNewNote = true
    ∧ step { handleAddNew initState with localTitle := "x" }
        (Ev.del (Except.ok ()) (Except.ok []))
      = ({ handleAddNew initState with localTitle := "x" }, []) := by
  refine ⟨by decide, ?_⟩
  exact (C9_drafting_never_sends_placeholder
    { handleAddNew initState with localTitle := "x" }
    (Except.ok ()) (Except.ok []) (by decide)).1

/-- C10: if `handleSave` runs while neither the new-note flag is set nor any
note is active, no create or update request is issued, yet the selection is
still reset to Idle (`activeId`, `activeNote` cleared, flag off) and the
list cache is still refreshed: the only request issued is the list request,
and on a successful refresh the cache becomes the refreshed list. -/
theorem C10_save_nothing_active (s : HomeState) (t c : String)
    (rq : Except Unit Unit) (rl : Except Unit (List Note))
    (h1 : s.activeNote = none) (h2 : s.isNewNote = false) :
    (handleSave s t c rq rl).2 = [Request.listNotes]
    ∧ (handleSave s t c rq rl).1.activeId = none
    ∧ (handleSave s t c rq rl).1.activeNote = none
    ∧ (handleSave s t c rq rl).1.isNewNote = false
    ∧ selState (handleSave s t c rq rl).1 = SelSt.Idle
    ∧ (∀ d : List Note, rl = Except.ok d → (handleSave s t c rq rl).1.notes = d) := by
  obtain ⟨notes, aid, an, inn, ld, er, lt, lc⟩ := s
  have h1' : an = none := h1
  have h2' : inn = false := h2
  subst h1' h2'
  refine ⟨?_, ?_, ?_, ?_, ?_, ?_⟩
  · cases rl <;> simp [handleSave, applyRefresh]
  · cases rl <;> simp [handleSave, applyRefresh]
  · cases rl <;> simp [handleSave, applyRefresh]
  · cases rl <;> simp [handleSave, applyRefresh]
  · cases rl <;> simp [handleSave, applyRefresh, selState]
  · rintro d hd
    subst hd
    simp [handleSave, applyRefresh]

/-- C10 witness: `handleSave` on the initial state (nothing active, not
drafting) issues exactly the list request and ends Idle. -/
theorem C10_save_nothing_active_witness :
    initState.activeNote = none
    ∧ initState.isNewNote = false
    ∧ (handleSave initState "x" "y" (Except.ok ()) (Except.ok [])).2
        = [Request.listNotes]
    ∧ selState (handleSave initState "x" "y" (Except.ok ()) (Except.ok [])).1
        = SelSt.Idle := by
  have h := C10_save_nothing_active initState "x" "y" (Except.ok ())
    (Except.ok []) (by decide) (by decide)
  exact ⟨by decide, by decide, h.1, h.2.2.2.2.1⟩

end NotesApp
